import Mathlib

/-!
Verification of the `fedora-setup` provisioning tool (`fedora_setup.py`)
against its natural-language specification.

The script is embedded shallowly: every external effect (path existence
checks, subprocess invocations, reads of the package-list files) is routed
through an explicit environment `Env`, and each method of the `FedoraSetup`
class becomes a pure Lean function returning the ordered list of external
commands it dispatches together with the log events it emits.
-/

/-- Log levels of the `logging` module as used by the script. -/
inductive LogLevel
  | debug
  | info
  | warning
  | error
deriving DecidableEq, Repr

/-- One log record emitted through `self.log`. -/
structure LogEvent where
  level : LogLevel
  msg : String
deriving DecidableEq, Repr

/-- Result of one external command, as `subprocess.run` reports it:
exit status plus captured standard output and standard error
(`capture_output=True, text=True`). -/
structure CmdResult where
  returncode : Int
  stdout : String
  stderr : String
deriving DecidableEq, Repr

/-- The world the script runs against: which filesystem paths exist
(`Path.exists`), what each external command returns (`subprocess.run`), and
the raw lines `readlines()` yields for each readable file (`none` models
`FileNotFoundError`). -/
structure Env where
  pathExists : String → Bool
  run : List String → CmdResult
  fileLines : String → Option (List String)

/-- Python whitespace, as recognised by `str.strip()`. -/
def isPyWs (c : Char) : Bool :=
  c = ' ' || c = '\t' || c = '\n' || c = '\r' || c = '\x0b' || c = '\x0c'

/-- Embedding of Python `str.strip()`: drop leading and trailing
whitespace. -/
def strip (s : String) : String :=
  String.mk (((s.toList.dropWhile isPyWs).reverse.dropWhile isPyWs).reverse)

/-- Result of `FedoraSetup._run_command`: the boolean it returns, the log
events it emits, and — so the artifact-persistence claim can be stated —
the list of (file name, content) pairs the method itself writes. -/
structure RunCmdResult where
  success : Bool
  logs : List LogEvent
  filesWritten : List (String × String)
deriving DecidableEq, Repr

/-- `FedoraSetup._run_command` (src/fedora_setup.py lines 100-119): run the
command with `check=False`, log an error carrying the captured output on a
non-zero exit status and return `False`, otherwise return `True`.  The
method performs no file writes of its own (it only logs), hence
`filesWritten := []` on both branches. -/
def runCommand (env : Env) (command : List String) : RunCmdResult :=
  let commandStr := String.intercalate " " command
  let debugLog := LogEvent.mk .debug ("Running command: " ++ commandStr)
  let result := env.run command
  if result.returncode ≠ 0 then
    { success := false
      logs := [debugLog,
        LogEvent.mk .error
          ("Command failed\nSTDOUT: " ++ result.stdout ++ "\nSTDERR: " ++ result.stderr)]
      filesWritten := [] }
  else
    { success := true
      logs := [debugLog, LogEvent.mk .debug "Command succeeded"]
      filesWritten := [] }

/-- `FedoraSetup._load_package_list` (lines 85-98): read the lines of the file,
strip each and keep the non-blank ones in order; on `FileNotFoundError`
log a warning and return the empty list.  Returns (packages, log events). -/
def loadPackageList (env : Env) (repoDir relativePath : String) :
    List String × List LogEvent :=
  let filePath := repoDir ++ "/" ++ relativePath
  match env.fileLines filePath with
  | some xs =>
      (xs.foldr (fun x acc => let y := strip x; if y = "" then acc else y :: acc) [], [])
  | none => ([], [LogEvent.mk .warning ("Package file not found: " ++ filePath)])

/-- The `git clone` command for the shell-scripts dependency repository
(lines 69-76). -/
def cloneShellScriptsCmd (repoDir : String) : List String :=
  ["git", "clone", "https://github.com/cameronperot/shell-scripts.git",
   repoDir ++ "/shell-scripts"]

/-- The Fedora-version detection command, run with `check=True`
(lines 80-82). -/
def rpmVersionCmd : List String :=
  ["rpm", "-E", "%fedora"]

/-- State carried by a fully constructed `FedoraSetup` instance. -/
structure SetupState where
  homeDir : String
  backupDir : String
  repoDir : String
  scriptsDir : String
  fedoraVersion : String
deriving DecidableEq, Repr

/-- How `FedoraSetup.__init__` terminates: `sys.exit(1)` from path
validation, a raised `CalledProcessError` from the `check=True` rpm call,
or a fully constructed instance. -/
inductive InitOutcome
  | exitOne
  | rpmFailure
  | ok (st : SetupState)
deriving DecidableEq, Repr

/-- `true` exactly on the `ok` outcome. -/
def InitOutcome.isOk : InitOutcome → Bool
  | .ok _ => true
  | _ => false

/-- Outcome, dispatched external commands (in order) and log events of one
run of `FedoraSetup.__init__`. -/
structure InitResult where
  outcome : InitOutcome
  cmds : List (List String)
  logs : List LogEvent
deriving DecidableEq, Repr

/-- `FedoraSetup.__init__` (lines 34-83): resolve the backup directory
(defaulting to the repository directory), validate that the home and backup
directories exist (`sys.exit(1)` otherwise), warn about missing package
lists, clone the shell-scripts repository when its path is absent — the
return value of that `_run_command` call is discarded — and finally detect
the Fedora version with `check=True`, which raises on failure. -/
def initFedoraSetup (env : Env) (repoDir homeDir : String)
    (backupDirArg : Option String) : InitResult :=
  let backupDir := backupDirArg.getD repoDir
  let logs0 := [LogEvent.mk .info ("Logging to " ++ repoDir ++ "/fedora_setup.log")]
  if env.pathExists homeDir = false then
    ⟨.exitOne, [],
      logs0 ++ [LogEvent.mk .error ("Home directory does not exist: " ++ homeDir)]⟩
  else if env.pathExists backupDir = false then
    ⟨.exitOne, [],
      logs0 ++ [LogEvent.mk .error ("Backup directory does not exist: " ++ backupDir)]⟩
  else
    let pkgWarnings :=
      (["remove_packages.csv", "install_packages.csv"].filter
          (fun f => !(env.pathExists (repoDir ++ "/" ++ f)))).map
        (fun f => LogEvent.mk .warning ("Package list not found at " ++ repoDir ++ "/" ++ f))
    let scriptsRepo := repoDir ++ "/shell-scripts"
    let cloneCmds : List (List String) :=
      if env.pathExists scriptsRepo then [] else [cloneShellScriptsCmd repoDir]
    let cloneLogs : List LogEvent :=
      if env.pathExists scriptsRepo then []
      else LogEvent.mk .info "Cloning shell-scripts repository"
        :: (runCommand env (cloneShellScriptsCmd repoDir)).logs
    let rpmRes := env.run rpmVersionCmd
    let cmds := cloneCmds ++ [rpmVersionCmd]
    if rpmRes.returncode ≠ 0 then
      ⟨.rpmFailure, cmds, logs0 ++ pkgWarnings ++ cloneLogs⟩
    else
      let version := strip rpmRes.stdout
      ⟨.ok ⟨homeDir, backupDir, repoDir, scriptsRepo ++ "/scripts", version⟩, cmds,
        logs0 ++ pkgWarnings ++ cloneLogs
          ++ [LogEvent.mk .info ("Detected Fedora version: " ++ version)]⟩

/-- Dispatched commands and emitted logs of one stage method. -/
structure StageResult where
  cmds : List (List String)
  logs : List LogEvent
deriving DecidableEq, Repr

/-- Logs produced by dispatching a batch of commands through
`_run_command` in order (the `for command in commands` loop). -/
def dispatchAll (env : Env) (commands : List (List String)) : List LogEvent :=
  (commands.map (fun c => (runCommand env c).logs)).flatten

/-- The TLP packages appended when `install_tlp` is set (line 145). -/
def tlpPackages : List String :=
  ["tlp", "tlp-rdw", "powertop"]

/-- The RPM Fusion release-package URLs (lines 138-141). -/
def rpmFusionUrls (fedoraVersion : String) : List String :=
  ["https://download1.rpmfusion.org/free/fedora/rpmfusion-free-release-"
      ++ fedoraVersion ++ ".noarch.rpm",
   "https://download1.rpmfusion.org/nonfree/fedora/rpmfusion-nonfree-release-"
      ++ fedoraVersion ++ ".noarch.rpm"]

/-- The `dnf` command list built by `configure_packages` (lines 146-155):
remove and autoremove only when the remove list is non-empty, then the
RPM Fusion install and the full upgrade unconditionally, then the user
install only when the (possibly TLP-extended) install list is non-empty. -/
def configurePackagesCommands (removePackages installPackages : List String)
    (fedoraVersion : String) : List (List String) :=
  (if !removePackages.isEmpty then
      [["sudo", "dnf", "remove", "-y"] ++ removePackages,
       ["sudo", "dnf", "autoremove", "-y"]]
    else [])
  ++ [["sudo", "dnf", "install", "-y"] ++ rpmFusionUrls fedoraVersion,
      ["sudo", "dnf", "upgrade", "-y"]]
  ++ (if !installPackages.isEmpty then
        [["sudo", "dnf", "install", "-y"] ++ installPackages]
      else [])

/-- `FedoraSetup.configure_packages` (lines 121-159). -/
def configurePackages (env : Env) (st : SetupState) (installTlp : Bool) : StageResult :=
  let rpL := loadPackageList env st.repoDir "remove_packages.csv"
  let ipL := loadPackageList env st.repoDir "install_packages.csv"
  let installPackages := ipL.1 ++ (if installTlp then tlpPackages else [])
  let commands := configurePackagesCommands rpL.1 installPackages st.fedoraVersion
  { cmds := commands
    logs := [LogEvent.mk .info "Configuring packages"] ++ rpL.2 ++ ipL.2
      ++ dispatchAll env commands
      ++ [LogEvent.mk .info "Packages configured successfully"] }

/-- The two `/etc` configuration files copied by `configure_etc`
(`CONFIG_FILES` lines 18-23 and line 168). -/
def etcConfigFiles : List String :=
  ["/etc/ssh/ssh_config", "/etc/ssh/sshd_config"]

/-- Embedding of the Python slice `s[1:]` on strings. -/
def dropFirstChar (s : String) : String :=
  String.mk s.toList.tail

/-- One iteration of the copy loop in `configure_etc` (lines 169-177):
skip with a warning when the source file is absent, otherwise dispatch
`cp`, `chown`, `chmod` and `restorecon`. -/
def configureEtcFile (env : Env) (st : SetupState) (configFile : String) : StageResult :=
  let sourcePath := st.repoDir ++ "/" ++ dropFirstChar configFile
  if env.pathExists sourcePath then
    let commands :=
      [["sudo", "cp", "-a", sourcePath, configFile],
       ["sudo", "chown", "root:root", configFile],
       ["sudo", "chmod", "644", configFile],
       ["sudo", "restorecon", configFile]]
    ⟨commands, dispatchAll env commands⟩
  else
    ⟨[], [LogEvent.mk .warning ("Source file " ++ sourcePath ++ " does not exist, skipping")]⟩

/-- The command invoking the external moduli-filtering script (lines 181-183). -/
def moduliScriptCmd (st : SetupState) : List String :=
  ["sudo", "bash", st.scriptsDir ++ "/remove_small_ssh_moduli_primes.sh"]

/-- `FedoraSetup.configure_etc` (lines 161-183). -/
def configureEtc (env : Env) (st : SetupState) : StageResult :=
  let fileResults := etcConfigFiles.map (configureEtcFile env st)
  { cmds := (fileResults.map StageResult.cmds).flatten ++ [moduliScriptCmd st]
    logs := [LogEvent.mk .info "Configuring /etc"]
      ++ (fileResults.map StageResult.logs).flatten
      ++ [LogEvent.mk .info "Removing small primes from SSH moduli"]
      ++ (runCommand env (moduliScriptCmd st)).logs }

/-- The `git clone` command for the environment-setup fallback repository
(lines 197-204); its target is `source_dir.parent`, i.e.
`repo_dir/environment-setup`. -/
def envSetupCloneCmd (repoDir : String) : List String :=
  ["git", "clone", "https://github.com/cameronperot/environment-setup.git",
   repoDir ++ "/environment-setup"]

/-- `FedoraSetup.configure_home` (lines 185-216): prefer `backup_dir/home`
as the rsync source; when it is absent fall back to the dotfiles of the
environment-setup repository, cloning that repository first if its
directory is absent; then rsync into the home directory and fix `~/.ssh`
permissions. -/
def configureHome (env : Env) (st : SetupState) : StageResult :=
  let backupHome := st.backupDir ++ "/home"
  let useBackup := env.pathExists backupHome
  let sourceDir := if useBackup then backupHome else st.repoDir ++ "/environment-setup/dotfiles"
  let cloneNeeded := !useBackup && !(env.pathExists (st.repoDir ++ "/environment-setup"))
  let cloneCmds := if cloneNeeded then [envSetupCloneCmd st.repoDir] else []
  let cloneLogs :=
    if cloneNeeded then
      LogEvent.mk .info "Cloning environment-setup repository"
        :: (runCommand env (envSetupCloneCmd st.repoDir)).logs
    else []
  let rsyncCmd := ["rsync", "-a", "--progress", sourceDir ++ "/", st.homeDir ++ "/"]
  let sshDir := st.homeDir ++ "/.ssh"
  let sshCmd := ["bash", st.scriptsDir ++ "/set_ssh_dir_permissions.sh"]
  { cmds := cloneCmds ++ [rsyncCmd, sshCmd]
    logs := [LogEvent.mk .info ("Configuring " ++ st.homeDir)] ++ cloneLogs
      ++ [LogEvent.mk .info ("Copying files from " ++ sourceDir ++ " to " ++ st.homeDir)]
      ++ (runCommand env rsyncCmd).logs
      ++ [LogEvent.mk .info "Setting ~/.ssh permissions"]
      ++ (if env.pathExists sshDir then [] else [LogEvent.mk .info ("Created " ++ sshDir)])
      ++ (runCommand env sshCmd).logs }

/-- `FedoraSetup.INSTALL_SCRIPTS` (lines 26-32). -/
def installScripts : List String :=
  ["install_rust.sh", "install_i3status_rust.sh", "install_jetbrainsmono_nerd_font.sh",
   "install_keepassxc.sh", "install_keyd.sh"]

/-- One iteration of the loop in `run_install_scripts` (lines 225-232):
warn and skip when the script file is absent, otherwise dispatch it. -/
def runInstallScriptStep (env : Env) (st : SetupState) (scriptName : String) : StageResult :=
  let scriptPath := st.scriptsDir ++ "/" ++ scriptName
  if env.pathExists scriptPath then
    ⟨[["bash", scriptPath]],
      LogEvent.mk .info ("Running " ++ scriptName) :: (runCommand env ["bash", scriptPath]).logs⟩
  else
    ⟨[], [LogEvent.mk .warning ("Script " ++ scriptPath ++ " not found, skipping")]⟩

/-- `FedoraSetup.run_install_scripts` (lines 218-232). -/
def runInstallScripts (env : Env) (st : SetupState) : StageResult :=
  let steps := installScripts.map (runInstallScriptStep env st)
  { cmds := (steps.map StageResult.cmds).flatten
    logs := LogEvent.mk .info "Installing packages from scripts"
      :: (steps.map StageResult.logs).flatten }

/-- The command-line arguments recognised by `parse_args` (lines 266-309). -/
structure Args where
  backupDir : Option String
  debug : Bool
  configurePackagesFlag : Bool
  installTlp : Bool
  configureEtcFlag : Bool
  configureHomeFlag : Bool
  runInstallScriptsFlag : Bool
  allFlag : Bool
deriving DecidableEq, Repr

/-- Process exit code plus the dispatched commands and logs of one whole
invocation of the script. -/
structure MainResult where
  exitCode : Nat
  cmds : List (List String)
  logs : List LogEvent
deriving DecidableEq, Repr

/-- The stage methods selected by the flags, in the fixed order of the
`__main__` block (lines 318-325). -/
def selectedStages (env : Env) (st : SetupState) (args : Args) : List StageResult :=
  (if args.allFlag || args.configurePackagesFlag then
      [configurePackages env st args.installTlp] else [])
  ++ (if args.allFlag || args.configureEtcFlag then [configureEtc env st] else [])
  ++ (if args.allFlag || args.configureHomeFlag then [configureHome env st] else [])
  ++ (if args.allFlag || args.runInstallScriptsFlag then [runInstallScripts env st] else [])

/-- The `__main__` block (lines 312-333).  `KeyboardInterrupt` is modelled
coarsely as an `interrupted` flag raised before any work happens; its
handler exits with status 1.  `sys.exit(1)` raised inside `__init__` is a
`SystemExit`, which the `except Exception` clause does not catch, so the
process still terminates with status 1; a `CalledProcessError` from the
version probe is caught and also ends in `sys.exit(1)`.  When construction
succeeds the selected stages run and the process falls off the end of the
script with exit status 0 — stage methods only ever call `_run_command`,
which never raises. -/
def mainRun (env : Env) (repoDir homeDir : String) (args : Args)
    (interrupted : Bool) : MainResult :=
  if interrupted then ⟨1, [], []⟩
  else
    let ir := initFedoraSetup env repoDir homeDir args.backupDir
    match ir.outcome with
    | .exitOne => ⟨1, ir.cmds, ir.logs⟩
    | .rpmFailure => ⟨1, ir.cmds, ir.logs⟩
    | .ok st =>
      let stages := selectedStages env st args
      ⟨0, ir.cmds ++ (stages.map StageResult.cmds).flatten,
        ir.logs ++ (stages.map StageResult.logs).flatten⟩

/-- Splits a list of characters into maximal runs of non-whitespace
characters (auxiliary for whitespace-separated field parsing). -/
def splitWsAux : List Char → List Char → List (List Char)
  | [], acc => if acc.isEmpty then [] else [acc.reverse]
  | c :: cs, acc =>
    if isPyWs c then
      if acc.isEmpty then splitWsAux cs [] else acc.reverse :: splitWsAux cs []
    else splitWsAux cs (c :: acc)

/-- The whitespace-separated fields of a line. -/
def fieldsOf (line : String) : List String :=
  (splitWsAux line.toList []).map String.mk

/-- Parses a non-empty all-digit string, accumulating left to right. -/
def parseNatAux : List Char → Nat → Option Nat
  | [], acc => some acc
  | c :: cs, acc =>
    if c.isDigit then parseNatAux cs (acc * 10 + (c.toNat - 48)) else none

/-- The numeric value of a token, when it consists of decimal digits. -/
def parseNat? (s : String) : Option Nat :=
  match s.toList with
  | [] => none
  | l => parseNatAux l 0

/-- Modelled from the spec: the line-keeping predicate of the
weak-moduli-filtering action implemented by the external
`shell-scripts/scripts/remove_small_ssh_moduli_primes.sh` script, which is
invoked by `configure_etc` but is not among the sources of this repository.
Per the spec it reads "a line-oriented file of whitespace-separated
fields" and "retains only lines whose designated numeric field exceeds a
configured threshold"; `fieldIndex` counts fields from 1, matching the
example of the spec in which field index 4 of `"a b c 1500 e"` designates
`1500`. -/
def keepModuliLine (threshold fieldIndex : Nat) (line : String) : Bool :=
  match (fieldsOf line).get? (fieldIndex - 1) with
  | some tok =>
    match parseNat? tok with
    | some n => decide (threshold < n)
    | none => false
  | none => false

/-- Modelled from the spec: the retained lines of the moduli file. -/
def filterModuliLines (threshold fieldIndex : Nat) (lines : List String) : List String :=
  lines.filter (keepModuliLine threshold fieldIndex)

/-- Ownership and permission metadata of a file. -/
structure FileMeta where
  owner : String
  mode : Nat
deriving DecidableEq, Repr

/-- A file: its lines plus its metadata. -/
structure FsFile where
  content : List String
  meta : FileMeta
deriving DecidableEq, Repr

/-- Modelled from the spec: the whole weak-moduli-filtering action of the
external script — filter the lines of the file by the threshold and "atomically
replace the original file (write to a temporary location, then move into
place) before restoring ownership/permission metadata".  The model maps
the filesystem before the action to the filesystem after it: the original
path holds exactly the retained lines under the original metadata, the
temporary location does not linger, and every other path is untouched;
being a single total function, it has no observable half-written
intermediate state. -/
def removeSmallModuliAction (threshold fieldIndex : Nat)
    (fs : String → Option FsFile) (path tmpPath : String) : String → Option FsFile :=
  match fs path with
  | none => fs
  | some f =>
    fun p =>
      if p = path then some ⟨filterModuliLines threshold fieldIndex f.content, f.meta⟩
      else if p = tmpPath then none
      else fs p

theorem foldr_strip_filter (xs : List String) :
    xs.foldr (fun x acc => let y := strip x; if y = "" then acc else y :: acc) []
      = (xs.map strip).filter (fun y => y != "") := by
  induction xs with
  | nil => rfl
  | cons x xs ih =>
    by_cases h : strip x = ""
    · simp [List.filter, h, ih]
    · have h' : (strip x != "") = true := by simp [h]
      simp [List.filter_cons, h, h', ih]

/-- C3: an ordinary Step failure is never raised to the caller:
`_run_command` is a total function whose boolean result is `true` exactly
when the exit status of the external command is zero (`check=False`; failures
become data, not exceptions). -/
theorem c3_step_failure_is_data (env : Env) (command : List String) :
    (runCommand env command).success = ((env.run command).returncode == 0) := by
  by_cases h : (env.run command).returncode = 0 <;> simp [runCommand, h]

/-- Environment in which every external command fails with captured
output. -/
def failingEnv : Env :=
  { pathExists := fun _ => true
    run := fun _ => ⟨1, "captured out", "captured err"⟩
    fileLines := fun _ => none }

/-- C2 counterexample: a concrete failing command under
continue-and-record handling.  `_run_command` returns `False` — the Step
did fail and the caller proceeds — yet the set of files the method writes
is empty: no `<name>.stdout` / `<name>.stderr` artifact pair is created,
contrary to the claim. -/
theorem c2_counterexample :
    (runCommand failingEnv ["sudo", "dnf", "upgrade", "-y"]).success = false
    ∧ (runCommand failingEnv ["sudo", "dnf", "upgrade", "-y"]).filesWritten = [] := by
  constructor <;> rfl

/-- C2 amended: when a RecordAndContinue-style Step fails, the runner does
not write any artifact files; it records the captured standard output and
standard error in a single error entry of the run log and returns `False`,
after which the caller proceeds to the next Step. -/
theorem c2_failure_logged_not_persisted (env : Env) (command : List String)
    (hFail : (env.run command).returncode ≠ 0) :
    (runCommand env command).success = false
    ∧ (runCommand env command).filesWritten = []
    ∧ LogEvent.mk .error
        ("Command failed\nSTDOUT: " ++ (env.run command).stdout
          ++ "\nSTDERR: " ++ (env.run command).stderr)
        ∈ (runCommand env command).logs := by
  simp [runCommand, hFail]

/-- Witness for the amended C2 at a concrete failing command. -/
theorem c2_failure_logged_not_persisted_witness :
    (runCommand failingEnv ["rsync", "-a"]).success = false
    ∧ (runCommand failingEnv ["rsync", "-a"]).filesWritten = []
    ∧ LogEvent.mk .error
        ("Command failed\nSTDOUT: " ++ "captured out" ++ "\nSTDERR: " ++ "captured err")
        ∈ (runCommand failingEnv ["rsync", "-a"]).logs := by
  exact c2_failure_logged_not_persisted failingEnv ["rsync", "-a"] (by decide)

/-- C10: for an existing package-list file, `_load_package_list` returns
exactly the lines of the file stripped of surrounding whitespace, with blank
lines removed, in the original order, and warns about nothing. -/
theorem c10_load_package_list (env : Env) (repoDir relPath : String)
    (ls : List String)
    (h : env.fileLines (repoDir ++ "/" ++ relPath) = some ls) :
    (loadPackageList env repoDir relPath).1 = (ls.map strip).filter (fun y => y != "")
    ∧ (loadPackageList env repoDir relPath).2 = [] := by
  simp only [loadPackageList, h]
  exact ⟨foldr_strip_filter ls, trivial⟩

/-- Environment holding one concrete package-list file. -/
def pkgFileEnv : Env :=
  { pathExists := fun _ => true
    run := fun _ => ⟨0, "", ""⟩
    fileLines := fun p =>
      if p = "/repo/install_packages.csv" then some ["  vim\n", "\n", " git \n", "htop"]
      else none }

/-- Witness for C10 at a concrete file. -/
theorem c10_load_package_list_witness :
    (loadPackageList pkgFileEnv "/repo" "install_packages.csv").1
        = (["  vim\n", "\n", " git \n", "htop"].map strip).filter (fun y => y != "")
    ∧ (loadPackageList pkgFileEnv "/repo" "install_packages.csv").1 = ["vim", "git", "htop"]
    ∧ (loadPackageList pkgFileEnv "/repo" "install_packages.csv").2 = [] := by
  have h := c10_load_package_list pkgFileEnv "/repo" "install_packages.csv"
    ["  vim\n", "\n", " git \n", "htop"] (by decide)
  exact ⟨h.1, by decide, h.2⟩

/-- Environment where only the shell-scripts clone target is absent and
only the clone command fails. -/
def c1Env : Env :=
  { pathExists := fun p => p != "/repo/shell-scripts"
    run := fun c =>
      if c = cloneShellScriptsCmd "/repo" then ⟨1, "", "fatal: unable to access"⟩
      else ⟨0, "39\n", ""⟩
    fileLines := fun _ => none }

/-- C1 counterexample: in a concrete run the implicit dependency-fetch
step (the shell-scripts clone) fails, yet the constructor discards the
result of that `_run_command` call: the later Fedora-version command is
still dispatched and construction succeeds, so execution does not halt at
the failing step. -/
theorem c1_counterexample :
    (c1Env.run (cloneShellScriptsCmd "/repo")).returncode = 1
    ∧ (initFedoraSetup c1Env "/repo" "/home/user" none).cmds
        = [cloneShellScriptsCmd "/repo", rpmVersionCmd]
    ∧ (initFedoraSetup c1Env "/repo" "/home/user" none).outcome.isOk = true := by
  refine ⟨by decide, by decide, by decide⟩

/-- C1 amended: the dependency-fetch clone step does not carry Abort
policy — its failure is recorded in the log and ignored, and the
Fedora-version step is dispatched afterwards regardless.  The step that
does abort the run is the `check=True` Fedora-version detection: when it
fails the constructor raises, the process exits with status 1, and no
provisioning stage command beyond those of the constructor is ever
dispatched. -/
theorem c1_clone_failure_continues (env : Env) (repoDir homeDir : String) (args : Args)
    (hHome : env.pathExists homeDir = true)
    (hBackup : env.pathExists (args.backupDir.getD repoDir) = true)
    (hRepo : env.pathExists (repoDir ++ "/shell-scripts") = false)
    (hClone : (env.run (cloneShellScriptsCmd repoDir)).returncode ≠ 0) :
    (initFedoraSetup env repoDir homeDir args.backupDir).cmds
        = [cloneShellScriptsCmd repoDir, rpmVersionCmd]
    ∧ ((initFedoraSetup env repoDir homeDir args.backupDir).outcome.isOk
        = ((env.run rpmVersionCmd).returncode == 0))
    ∧ ((env.run rpmVersionCmd).returncode ≠ 0 →
        (mainRun env repoDir homeDir args false).exitCode = 1
        ∧ (mainRun env repoDir homeDir args false).cmds
            = [cloneShellScriptsCmd repoDir, rpmVersionCmd]) := by
  by_cases hRpm : (env.run rpmVersionCmd).returncode = 0
  · simp [initFedoraSetup, mainRun, hHome, hBackup, hRepo, hRpm, InitOutcome.isOk]
  · simp [initFedoraSetup, mainRun, hHome, hBackup, hRepo, hRpm, InitOutcome.isOk]

/-- Environment where every path except the shell-scripts clone target
exists and every command fails. -/
def c1FailEnv : Env :=
  { pathExists := fun p => p != "/repo/shell-scripts"
    run := fun _ => ⟨1, "", "error"⟩
    fileLines := fun _ => none }

/-- The argument record with every flag off and no backup directory. -/
def defaultArgs : Args :=
  ⟨none, false, false, false, false, false, false, false⟩

/-- Witness for the amended C1 at a concrete run in which both the clone
and the version probe fail. -/
theorem c1_clone_failure_continues_witness :
    (initFedoraSetup c1FailEnv "/repo" "/home/user" none).cmds
        = [cloneShellScriptsCmd "/repo", rpmVersionCmd]
    ∧ (mainRun c1FailEnv "/repo" "/home/user" defaultArgs false).exitCode = 1 := by
  have h := c1_clone_failure_continues c1FailEnv "/repo" "/home/user" defaultArgs
    (by decide) (by decide) (by decide) (by decide)
  exact ⟨h.1, (h.2.2 (by decide)).1⟩

/-- C7: the process exits with code 0 exactly when construction succeeded
and the selected stages ran (individual `_run_command` failures in the
stages cannot change the exit code, since `env.run` is arbitrary here),
with code 1 when the operator interrupts, and with code 1 when
construction failed (path validation or the version probe). -/
theorem c7_exit_codes (env : Env) (repoDir homeDir : String) (args : Args) :
    (mainRun env repoDir homeDir args true).exitCode = 1
    ∧ ((initFedoraSetup env repoDir homeDir args.backupDir).outcome.isOk = true →
        (mainRun env repoDir homeDir args false).exitCode = 0)
    ∧ ((initFedoraSetup env repoDir homeDir args.backupDir).outcome.isOk = false →
        (mainRun env repoDir homeDir args false).exitCode = 1) := by
  refine ⟨rfl, ?_, ?_⟩ <;> intro h <;>
    · unfold mainRun
      cases hc : (initFedoraSetup env repoDir homeDir args.backupDir).outcome <;>
        simp_all [InitOutcome.isOk]

/-- Environment where the version probe succeeds but every provisioning
stage command fails. -/
def stagesFailEnv : Env :=
  { pathExists := fun _ => true
    run := fun c => if c = rpmVersionCmd then ⟨0, "40\n", ""⟩ else ⟨1, "", "failed"⟩
    fileLines := fun _ => none }

/-- The argument record selecting every stage. -/
def allArgs : Args :=
  ⟨none, false, false, false, false, false, false, true⟩

/-- Witness for C7: interruption exits 1, and a full run in which every
stage command fails still exits 0. -/
theorem c7_exit_codes_witness :
    (mainRun stagesFailEnv "/repo" "/home/user" allArgs true).exitCode = 1
    ∧ (mainRun stagesFailEnv "/repo" "/home/user" allArgs false).exitCode = 0 := by
  have h := c7_exit_codes stagesFailEnv "/repo" "/home/user" allArgs
  exact ⟨h.1, h.2.1 (by decide)⟩

/-- C8: when the home directory or the resolved backup directory does not
exist at validation time, the constructor records an error, no external
command is ever dispatched, construction ends in `sys.exit(1)`, and the
process exit status is 1. -/
theorem c8_validation_failure_is_fatal (env : Env) (repoDir homeDir : String) (args : Args)
    (h : env.pathExists homeDir = false
      ∨ env.pathExists (args.backupDir.getD repoDir) = false) :
    (initFedoraSetup env repoDir homeDir args.backupDir).outcome = .exitOne
    ∧ (initFedoraSetup env repoDir homeDir args.backupDir).cmds = []
    ∧ ((initFedoraSetup env repoDir homeDir args.backupDir).logs.any
        (fun e => e.level == .error)) = true
    ∧ (mainRun env repoDir homeDir args false).exitCode = 1 := by
  cases h with
  | inl hh => simp [initFedoraSetup, mainRun, hh]
  | inr hb =>
    by_cases hh : env.pathExists homeDir = false
    · simp [initFedoraSetup, mainRun, hh]
    · have hh' : env.pathExists homeDir = true := by
        cases hcase : env.pathExists homeDir <;> simp_all
      simp [initFedoraSetup, mainRun, hh', hb]

/-- Environment in which the backup directory is absent. -/
def noBackupEnv : Env :=
  { pathExists := fun p => p != "/backup"
    run := fun _ => ⟨0, "", ""⟩
    fileLines := fun _ => none }

/-- The argument record pointing at the absent backup directory. -/
def backupArgs : Args :=
  ⟨some "/backup", false, false, false, false, false, false, true⟩

/-- Witness for C8 with a concrete absent backup directory. -/
theorem c8_validation_failure_is_fatal_witness :
    (initFedoraSetup noBackupEnv "/repo" "/home/user" (some "/backup")).outcome
        = .exitOne
    ∧ (initFedoraSetup noBackupEnv "/repo" "/home/user" (some "/backup")).cmds = []
    ∧ (mainRun noBackupEnv "/repo" "/home/user" backupArgs false).exitCode = 1 := by
  have h := c8_validation_failure_is_fatal noBackupEnv "/repo" "/home/user" backupArgs
    (Or.inr (by decide))
  exact ⟨h.1, h.2.1, h.2.2.2⟩

/-- Environment where the backup `home` subtree exists but the
environment-setup clone target does not. -/
def c4Env : Env :=
  { pathExists := fun p => p == "/backup/home" || p == "/home/user" || p == "/backup"
    run := fun _ => ⟨0, "", ""⟩
    fileLines := fun _ => none }

/-- A concrete constructed state for the stage methods. -/
def c4State : SetupState :=
  ⟨"/home/user", "/backup", "/repo", "/repo/shell-scripts/scripts", "39"⟩

/-- C4 counterexample: in `configure_home`, when the backup `home`
directory exists, the clone of the environment-setup repository is never
invoked even though its local target path does not exist — refuting the
claimed "invoked if and only if its local target path does not already
exist" for that dependency repository. -/
theorem c4_counterexample :
    c4Env.pathExists ("/repo" ++ "/environment-setup") = false
    ∧ envSetupCloneCmd "/repo" ∉ (configureHome c4Env c4State).cmds := by
  refine ⟨by decide, by decide⟩

/-- C4 amended: a clone is never invoked when its target path exists, and
is invoked exactly once with the configured remote URL and local path when
it is invoked.  The shell-scripts clone in the constructor is invoked
exactly when its target path is absent; the environment-setup clone in
`configure_home` is invoked exactly when the backup `home` directory is
absent (so the fallback is needed) and its target path is absent. -/
theorem c4_clone_guard (env : Env) (st : SetupState) (repoDir homeDir : String)
    (b : Option String)
    (hHome : env.pathExists homeDir = true)
    (hBackup : env.pathExists (b.getD repoDir) = true) :
    ((initFedoraSetup env repoDir homeDir b).cmds.count (cloneShellScriptsCmd repoDir)
        = if env.pathExists (repoDir ++ "/shell-scripts") then 0 else 1)
    ∧ ((configureHome env st).cmds.count (envSetupCloneCmd st.repoDir)
        = if !env.pathExists (st.backupDir ++ "/home")
             && !env.pathExists (st.repoDir ++ "/environment-setup") then 1 else 0) := by
  cases hs : env.pathExists (repoDir ++ "/shell-scripts") <;>
    cases hbh : env.pathExists (st.backupDir ++ "/home") <;>
      cases hes : env.pathExists (st.repoDir ++ "/environment-setup") <;>
        by_cases hRpm : (env.run ["rpm", "-E", "%fedora"]).returncode = 0 <;>
          simp [initFedoraSetup, configureHome, hHome, hBackup, hs, hbh, hes, hRpm,
            cloneShellScriptsCmd, rpmVersionCmd, envSetupCloneCmd, List.count_cons]

/-- Witness for the amended C4: the shell-scripts clone fires exactly once
when its target is absent; the environment-setup clone does not fire when
the backup `home` directory exists. -/
theorem c4_clone_guard_witness :
    ((initFedoraSetup c4Env "/repo" "/home/user" (some "/backup")).cmds.count
        (cloneShellScriptsCmd "/repo")) = 1
    ∧ ((configureHome c4Env c4State).cmds.count (envSetupCloneCmd c4State.repoDir)) = 0 := by
  have h := c4_clone_guard c4Env c4State "/repo" "/home/user" (some "/backup")
    (by decide) (by decide)
  refine ⟨?_, ?_⟩
  · rw [h.1]; decide
  · rw [h.2]; decide

theorem installStep_cmds_flatten (env : Env) (st : SetupState) (l : List String) :
    ((l.map (runInstallScriptStep env st)).map StageResult.cmds).flatten
      = (l.filter (fun n => env.pathExists (st.scriptsDir ++ "/" ++ n))).map
          (fun n => ["bash", st.scriptsDir ++ "/" ++ n]) := by
  induction l with
  | nil => rfl
  | cons x xs ih =>
    simp only [List.map_cons, List.flatten_cons, List.filter_cons]
    rw [ih]
    by_cases hx : env.pathExists (st.scriptsDir ++ "/" ++ x) = true <;>
      simp [runInstallScriptStep, hx]

/-- C5: a lazily-checked file that is absent at execution time is handled
tolerantly — a missing install script contributes no dispatched command
and only a warning to the run log while the remaining existing scripts
are all still dispatched in order, and a missing package-list file yields
the empty package list with only a warning. -/
theorem c5_missing_files_warn_and_skip (env : Env) (st : SetupState)
    (name relPath : String)
    (hName : name ∈ installScripts)
    (hMissing : env.pathExists (st.scriptsDir ++ "/" ++ name) = false)
    (hFile : env.fileLines (st.repoDir ++ "/" ++ relPath) = none) :
    (runInstallScriptStep env st name).cmds = []
    ∧ LogEvent.mk .warning
        ("Script " ++ (st.scriptsDir ++ "/" ++ name) ++ " not found, skipping")
        ∈ (runInstallScripts env st).logs
    ∧ (runInstallScripts env st).cmds
        = (installScripts.filter (fun n => env.pathExists (st.scriptsDir ++ "/" ++ n))).map
            (fun n => ["bash", st.scriptsDir ++ "/" ++ n])
    ∧ loadPackageList env st.repoDir relPath
        = ([], [LogEvent.mk .warning
            ("Package file not found: " ++ (st.repoDir ++ "/" ++ relPath))]) := by
  have hstep : (runInstallScriptStep env st name).logs
      = [LogEvent.mk .warning
          ("Script " ++ (st.scriptsDir ++ "/" ++ name) ++ " not found, skipping")] := by
    simp [runInstallScriptStep, hMissing]
  refine ⟨by simp [runInstallScriptStep, hMissing], ?_, ?_, ?_⟩
  · show _ ∈ (runInstallScripts env st).logs
    have hmem : (runInstallScriptStep env st name).logs
        ∈ (installScripts.map (runInstallScriptStep env st)).map StageResult.logs := by
      exact List.mem_map_of_mem _ (List.mem_map_of_mem _ hName)
    refine List.mem_cons_of_mem _ (List.mem_flatten.mpr ⟨_, hmem, ?_⟩)
    rw [hstep]
    exact List.mem_singleton.mpr rfl
  · exact installStep_cmds_flatten env st installScripts
  · simp [loadPackageList, hFile]

/-- Environment where exactly the rust install script is missing and the
package-list files are absent. -/
def c5Env : Env :=
  { pathExists := fun p => p != "/scripts/install_rust.sh"
    run := fun _ => ⟨0, "", ""⟩
    fileLines := fun _ => none }

/-- A concrete state whose scripts directory is `/scripts`. -/
def c5State : SetupState :=
  ⟨"/home/user", "/backup", "/repo", "/scripts", "39"⟩

/-- Witness for C5 at a concrete missing script and missing package list. -/
theorem c5_missing_files_warn_and_skip_witness :
    (runInstallScriptStep c5Env c5State "install_rust.sh").cmds = []
    ∧ (runInstallScripts c5Env c5State).cmds
        = (installScripts.filter
              (fun n => c5Env.pathExists (c5State.scriptsDir ++ "/" ++ n))).map
            (fun n => ["bash", c5State.scriptsDir ++ "/" ++ n])
    ∧ (loadPackageList c5Env c5State.repoDir "remove_packages.csv").1 = [] := by
  have h := c5_missing_files_warn_and_skip c5Env c5State "install_rust.sh"
    "remove_packages.csv" (by decide) (by decide) (by decide)
  exact ⟨h.1, h.2.2.1, by rw [h.2.2.2]⟩

/-- C6: the weak-moduli filtering action keeps exactly the lines whose
designated numeric field exceeds the threshold, replaces the original file
with the filtered content in one step while restoring its
ownership/permission metadata, leaves nothing at the temporary location and
touches no other path; with threshold 2000 and field index 4 only
`"a b c 2500 e"` of the two example lines of the spec is kept, and empty input
yields empty output. -/
theorem c6_moduli_filter (threshold fieldIndex : Nat)
    (fs : String → Option FsFile) (path tmpPath : String) (f : FsFile)
    (hf : fs path = some f) (hTmp : tmpPath ≠ path) :
    removeSmallModuliAction threshold fieldIndex fs path tmpPath path
        = some ⟨filterModuliLines threshold fieldIndex f.content, f.meta⟩
    ∧ removeSmallModuliAction threshold fieldIndex fs path tmpPath tmpPath = none
    ∧ (∀ p, p ≠ path → p ≠ tmpPath →
        removeSmallModuliAction threshold fieldIndex fs path tmpPath p = fs p)
    ∧ filterModuliLines 2000 4 ["a b c 1500 e", "a b c 2500 e"] = ["a b c 2500 e"]
    ∧ filterModuliLines 2000 4 [] = [] := by
  refine ⟨?_, ?_, ?_, by decide, by decide⟩
  · simp [removeSmallModuliAction, hf]
  · simp [removeSmallModuliAction, hf, hTmp]
  · intro p hp ht
    simp [removeSmallModuliAction, hf, hp, ht]

/-- A concrete moduli file. -/
def moduliFs : String → Option FsFile :=
  fun p =>
    if p = "/etc/ssh/moduli" then
      some ⟨["a b c 1500 e", "a b c 2500 e"], ⟨"root:root", 644⟩⟩
    else none

/-- Witness for C6 on the example lines of the spec. -/
theorem c6_moduli_filter_witness :
    removeSmallModuliAction 2000 4 moduliFs "/etc/ssh/moduli" "/etc/ssh/moduli.tmp"
        "/etc/ssh/moduli" = some ⟨["a b c 2500 e"], ⟨"root:root", 644⟩⟩
    ∧ removeSmallModuliAction 2000 4 moduliFs "/etc/ssh/moduli" "/etc/ssh/moduli.tmp"
        "/etc/ssh/moduli.tmp" = none := by
  have h := c6_moduli_filter 2000 4 moduliFs "/etc/ssh/moduli" "/etc/ssh/moduli.tmp"
    ⟨["a b c 1500 e", "a b c 2500 e"], ⟨"root:root", 644⟩⟩ (by decide) (by decide)
  refine ⟨?_, h.2.1⟩
  rw [h.1]
  decide

/-- The `dnf` operation a command performs, when it is a `dnf` command. -/
def dnfSubcommand (c : List String) : Option String :=
  match c with
  | "sudo" :: "dnf" :: op :: _ => some op
  | _ => none

theorem configurePackagesCommands_spec (rp ip : List String) (v : String) :
    (rp = [] → ∀ c ∈ configurePackagesCommands rp ip v,
      dnfSubcommand c ≠ some "remove" ∧ dnfSubcommand c ≠ some "autoremove")
    ∧ (ip = [] → ∀ c ∈ configurePackagesCommands rp ip v,
      dnfSubcommand c = some "install" →
        c = ["sudo", "dnf", "install", "-y"] ++ rpmFusionUrls v)
    ∧ (["sudo", "dnf", "install", "-y"] ++ rpmFusionUrls v)
        ∈ configurePackagesCommands rp ip v
    ∧ ["sudo", "dnf", "upgrade", "-y"] ∈ configurePackagesCommands rp ip v := by
  refine ⟨?_, ?_, ?_, ?_⟩
  · intro h c hc
    subst h
    simp [configurePackagesCommands] at hc
    rcases hc with h1 | h1 | ⟨_, h1⟩ <;> subst h1 <;> simp [dnfSubcommand]
  · intro h c hc hop
    subst h
    simp [configurePackagesCommands] at hc
    rcases hc with ⟨_, h1 | h1⟩ | h1 | h1 <;> subst h1 <;>
      simp [dnfSubcommand] at hop ⊢
  · simp [configurePackagesCommands]
  · simp [configurePackagesCommands]

/-- C9: `configure_packages` never dispatches `dnf remove` or
`dnf autoremove` when the remove list is empty, dispatches no user-package
install when the TLP-extended install list is empty (the only `dnf install`
is then the RPM Fusion one), and dispatches the RPM Fusion install and the
full upgrade on every invocation. -/
theorem c9_package_commands (env : Env) (st : SetupState) (installTlp : Bool) :
    ((loadPackageList env st.repoDir "remove_packages.csv").1 = [] →
      ∀ c ∈ (configurePackages env st installTlp).cmds,
        dnfSubcommand c ≠ some "remove" ∧ dnfSubcommand c ≠ some "autoremove")
    ∧ ((loadPackageList env st.repoDir "install_packages.csv").1
          ++ (if installTlp then tlpPackages else []) = [] →
      ∀ c ∈ (configurePackages env st installTlp).cmds,
        dnfSubcommand c = some "install" →
          c = ["sudo", "dnf", "install", "-y"] ++ rpmFusionUrls st.fedoraVersion)
    ∧ (["sudo", "dnf", "install", "-y"] ++ rpmFusionUrls st.fedoraVersion)
        ∈ (configurePackages env st installTlp).cmds
    ∧ ["sudo", "dnf", "upgrade", "-y"] ∈ (configurePackages env st installTlp).cmds := by
  have hc : (configurePackages env st installTlp).cmds
      = configurePackagesCommands
          (loadPackageList env st.repoDir "remove_packages.csv").1
          ((loadPackageList env st.repoDir "install_packages.csv").1
            ++ (if installTlp then tlpPackages else []))
          st.fedoraVersion := rfl
  rw [hc]
  exact configurePackagesCommands_spec _ _ _

/-- Witness for C9 in a run whose package-list files are both absent. -/
theorem c9_package_commands_witness :
    (["sudo", "dnf", "install", "-y"] ++ rpmFusionUrls "39")
        ∈ (configurePackages failingEnv c5State false).cmds
    ∧ ["sudo", "dnf", "upgrade", "-y"] ∈ (configurePackages failingEnv c5State false).cmds
    ∧ (dnfSubcommand (["sudo", "dnf", "install", "-y"] ++ rpmFusionUrls "39")
          ≠ some "remove"
        ∧ dnfSubcommand (["sudo", "dnf", "install", "-y"] ++ rpmFusionUrls "39")
          ≠ some "autoremove") := by
  have h := c9_package_commands failingEnv c5State false
  exact ⟨h.2.2.1, h.2.2.2, h.1 (by decide) _ h.2.2.1⟩
